import Mathlib

/-!
Verification development for the cross-currency payment service.

Shallow embedding of the three core components:
* the data model (`app/models.py`),
* the in-memory payment repository (`app/repository.py`),
* the retrying FX quote client (`app/fx_client.py`),
* the payment orchestrator `create_payment` (`app/routers.py`).

Machine reals (Python floats) are modelled as rationals, wall-clock readings
as natural numbers supplied by an abstract `clock`, and the unreliable
upstream FX service as a function from attempt index to the observable
outcome of that attempt.
-/

set_option maxHeartbeats 1000000

/- ------------------------------------------------------------------ -/
/- Data model (app/models.py)                                          -/
/- ------------------------------------------------------------------ -/

/-- Lifecycle status of a payment (`PaymentStatus(str, Enum)`). -/
inductive PaymentStatus
  | PENDING
  | SUCCEEDED
  | FAILED
deriving DecidableEq, Repr

/-- The string value carried by each member of the `str`-valued enum. -/
def PaymentStatus.value : PaymentStatus → String
  | .PENDING => "PENDING"
  | .SUCCEEDED => "SUCCEEDED"
  | .FAILED => "FAILED"

/-- Pydantic validation of a status string back into the enum
(`Payment(**asdict(rec))` re-validates the stored value). -/
def statusOfValue (s : String) : Option PaymentStatus :=
  if s = "PENDING" then some .PENDING
  else if s = "SUCCEEDED" then some .SUCCEEDED
  else if s = "FAILED" then some .FAILED
  else none

/-- Diagnostic information about processing a payment (`Diagnostics`). -/
structure Diagnostics where
  fx_latency_ms : Option Nat := none
  fx_error : Option String := none
deriving DecidableEq, Repr

/-- Representation of a payment in the system (`Payment`). -/
structure Payment where
  id : String
  sender : String
  receiver : String
  amount : ℚ
  source_currency : String
  destination_currency : String
  status : PaymentStatus
  payout_amount : Option ℚ := none
  fx_rate : Option ℚ := none
  error_message : Option String := none
  diagnostics : Diagnostics := {}
  created_at : Nat
  updated_at : Nat
  payout_currency : String
deriving DecidableEq, Repr

/-- Incoming JSON body for creating a payment (`CreatePaymentRequest`).
Field validators (non-empty strings, positive amount) run at the HTTP
boundary before the orchestrator is entered. -/
structure CreatePaymentRequest where
  sender : String
  receiver : String
  amount : ℚ
  source_currency : String
  destination_currency : String
deriving DecidableEq, Repr

/-- Python `str.upper()` for the ASCII identifiers used here, written with
structural recursion over the character list. -/
def pyUpper (s : String) : String := ⟨s.data.map Char.toUpper⟩

/-- Python `str.strip()`: drop whitespace from both ends, written with
structural recursion over the character list. -/
def pyStrip (s : String) : String :=
  ⟨(((s.data.dropWhile Char.isWhitespace).reverse).dropWhile Char.isWhitespace).reverse⟩

/-- The validation imposed by `CreatePaymentRequest`'s field validators. -/
def CreatePaymentRequest.validated (r : CreatePaymentRequest) : Prop :=
  pyStrip r.sender ≠ "" ∧ pyStrip r.receiver ≠ "" ∧
  pyStrip r.source_currency ≠ "" ∧ pyStrip r.destination_currency ≠ "" ∧
  0 < r.amount

/- ------------------------------------------------------------------ -/
/- Repository (app/repository.py)                                      -/
/- ------------------------------------------------------------------ -/

/-- The plain-dict form of `Diagnostics` produced by `model_dump()` and kept
inside the stored dataclass. -/
structure DiagnosticsDict where
  fx_latency_ms : Option Nat
  fx_error : Option String
deriving DecidableEq, Repr

/-- Dataclass representation of a Payment used for internal storage
(`PaymentRecord`): status as its raw string value, diagnostics as a dict. -/
structure PaymentRecord where
  id : String
  sender : String
  receiver : String
  amount : ℚ
  source_currency : String
  destination_currency : String
  status : String
  payout_amount : Option ℚ
  fx_rate : Option ℚ
  error_message : Option String
  diagnostics : DiagnosticsDict
  created_at : Nat
  updated_at : Nat
  payout_currency : String
deriving DecidableEq, Repr

/-- `PaymentRecord(**payment.model_dump())`. -/
def PaymentRecord.ofPayment (p : Payment) : PaymentRecord :=
  { id := p.id
    sender := p.sender
    receiver := p.receiver
    amount := p.amount
    source_currency := p.source_currency
    destination_currency := p.destination_currency
    status := p.status.value
    payout_amount := p.payout_amount
    fx_rate := p.fx_rate
    error_message := p.error_message
    diagnostics := ⟨p.diagnostics.fx_latency_ms, p.diagnostics.fx_error⟩
    created_at := p.created_at
    updated_at := p.updated_at
    payout_currency := p.payout_currency }

/-- `Payment(**asdict(rec))`: re-validation can reject a malformed status
string, hence the `Option`. -/
def PaymentRecord.toPayment (r : PaymentRecord) : Option Payment :=
  match statusOfValue r.status with
  | none => none
  | some st =>
      some
        { id := r.id
          sender := r.sender
          receiver := r.receiver
          amount := r.amount
          source_currency := r.source_currency
          destination_currency := r.destination_currency
          status := st
          payout_amount := r.payout_amount
          fx_rate := r.fx_rate
          error_message := r.error_message
          diagnostics := ⟨r.diagnostics.fx_latency_ms, r.diagnostics.fx_error⟩
          created_at := r.created_at
          updated_at := r.updated_at
          payout_currency := r.payout_currency }

/-- Errors surfaced by the repository: `PaymentNotFound(payment_id)` and a
pydantic validation failure on the way out of storage. -/
inductive RepoError
  | PaymentNotFound (id : String)
  | ValidationError (msg : String)
deriving DecidableEq, Repr

/-- `str(exc)` for a repository exception: `str(PaymentNotFound(pid))` is
the id itself. -/
def RepoError.message : RepoError → String
  | .PaymentNotFound i => i
  | .ValidationError m => m

/-- The internal `Dict[str, PaymentRecord]`, insertion ordered. -/
abbrev StoreMap := List (String × PaymentRecord)

/-- Python dict assignment `d[k] = r`: replace in place when the key exists,
otherwise append at the end. -/
def storeSet : StoreMap → String → PaymentRecord → StoreMap
  | [], k, r => [(k, r)]
  | kv :: tl, k, r => if kv.1 = k then (k, r) :: tl else kv :: storeSet tl k r

/-- Python dict lookup `d.get(k)`. -/
def storeLookup : StoreMap → String → Option PaymentRecord
  | [], _ => none
  | kv :: tl, k => if kv.1 = k then some kv.2 else storeLookup tl k

/-- Thread-safe in-memory payment repository (the lock serialises each
operation; the model works on the state between operations). -/
structure InMemoryPaymentRepository where
  payments : StoreMap
deriving DecidableEq, Repr

/-- `save`: convert to a `PaymentRecord` and insert or unconditionally
overwrite under the payment's id. -/
def InMemoryPaymentRepository.save (repo : InMemoryPaymentRepository)
    (payment : Payment) : InMemoryPaymentRepository :=
  ⟨storeSet repo.payments payment.id (PaymentRecord.ofPayment payment)⟩

/-- `update`: replace the record under its id, raising `PaymentNotFound`
when the id is not present (in which case the map is left untouched). -/
def InMemoryPaymentRepository.update (repo : InMemoryPaymentRepository)
    (payment : Payment) : Except RepoError Unit × InMemoryPaymentRepository :=
  if (storeLookup repo.payments payment.id).isSome then
    (Except.ok (), ⟨storeSet repo.payments payment.id (PaymentRecord.ofPayment payment)⟩)
  else
    (Except.error (.PaymentNotFound payment.id), repo)

/-- `get`: look the record up and convert it back to a `Payment`. -/
def InMemoryPaymentRepository.get (repo : InMemoryPaymentRepository)
    (payment_id : String) : Except RepoError Payment :=
  match storeLookup repo.payments payment_id with
  | none => Except.error (.PaymentNotFound payment_id)
  | some rec =>
      match rec.toPayment with
      | some p => Except.ok p
      | none => Except.error (.ValidationError rec.status)

/- ------------------------------------------------------------------ -/
/- FX quote client (app/fx_client.py)                                  -/
/- ------------------------------------------------------------------ -/

/-- Observable outcome of one attempt against the upstream FX service:
either an exception raised inside the `try` block (transport failure, an
unparseable body from `resp.json()`, a `float(...)` conversion failure),
or a received response with a non-success HTTP status, or a received,
parsed success response carrying a rate value (`data.get("exchange_rate",
0.0)` supplies `0` when the field is missing).  Received responses carry
the wall-clock latency in milliseconds measured for that attempt. -/
inductive Attempt
  | exn (msg : String)
  | badStatus (code : Nat) (latency_ms : Nat)
  | ok (rate : ℚ) (latency_ms : Nat)
deriving DecidableEq, Repr

/-- An attempt short-circuits the loop exactly when a success response was
received, parsed, and its decoded rate is positive; the returned latency is
the one measured for that attempt alone. -/
def attemptSuccess : Attempt → Option (ℚ × Nat)
  | .ok rate lat => if 0 < rate then some (rate, lat) else none
  | _ => none

/-- Message of the `RuntimeError` raised for a non-success status. -/
def badStatusMsg (code : Nat) : String :=
  "FX service returned status " ++ toString code

/-- Message of the `RuntimeError` raised for a non-positive decoded rate. -/
def invalidRateMsg (rate : ℚ) : String :=
  "Invalid exchange rate from FX: " ++ toString rate

/-- The `str(e)` recorded into `last_exc` when an attempt does not succeed.
(For `.ok rate _` with `rate > 0` the attempt succeeds and nothing is
recorded; the value returned here for that case is never used.) -/
def failMsg : Attempt → String
  | .exn m => m
  | .badStatus code _ => badStatusMsg code
  | .ok rate _ => invalidRateMsg rate

/-- Errors with which `get_quote` can terminate: the fail-fast argument
check (`ValueError`), the final candidate failure after the last attempt,
and the `assert last_exc is not None` tripping when the retry loop runs
zero times. -/
inductive FXError
  | valueError (msg : String)
  | quoteFailure (msg : String)
  | assertionError
deriving DecidableEq, Repr

/-- `str(exc)` for an error raised out of `get_quote`. -/
def FXError.message : FXError → String
  | .valueError m => m
  | .quoteFailure m => m
  | .assertionError => ""

/-- Full observable behaviour of one `get_quote` call: how many attempts
were issued, the backoff sleeps performed (in seconds, in order), and the
returned value or raised error. -/
structure QuoteRun where
  attemptsMade : Nat
  sleeps : List ℚ
  result : Except FXError (ℚ × Nat)
deriving Repr

/-- HTTP client configuration for the FX service (`FXClient` dataclass). -/
structure FXClient where
  base_url : String
  timeout_seconds : ℚ := 3
  max_retries : Nat := 3
deriving DecidableEq, Repr

/-- The retry loop `for attempt in range(self.max_retries)` of `get_quote`,
entered at attempt index `i` with `rem` loop iterations left and the
current `last_exc`.  On a non-success attempt the candidate failure is
recorded and, unless this was the last attempt (`attempt <
self.max_retries - 1` guards the sleep), the client sleeps
`0.2 * (attempt + 1)` seconds before the next attempt.  When the loop
exhausts, the recorded candidate failure is raised. -/
def quoteLoop (upstream : Nat → Attempt) (maxR : Nat) :
    Nat → Nat → Option String → QuoteRun
  | 0, _, lastExc =>
      { attemptsMade := 0
        sleeps := []
        result := Except.error
          (match lastExc with
           | some m => .quoteFailure m
           | none => .assertionError) }
  | rem + 1, i, _ =>
      match attemptSuccess (upstream i) with
      | some (rate, lat) =>
          { attemptsMade := 1, sleeps := [], result := Except.ok (rate, lat) }
      | none =>
          let rest := quoteLoop upstream maxR rem (i + 1) (some (failMsg (upstream i)))
          { attemptsMade := rest.attemptsMade + 1
            sleeps := (if i < maxR - 1 then [(1 / 5 : ℚ) * ((i : ℚ) + 1)] else [])
              ++ rest.sleeps
            result := rest.result }

/-- `FXClient.get_quote`: fail fast on an empty currency code (`not
source_currency or not dest_currency`), otherwise run the retry loop
against the fixed Twirp endpoint. -/
def FXClient.get_quote (c : FXClient) (upstream : Nat → Attempt)
    (source_currency dest_currency : String) : QuoteRun :=
  if source_currency = "" ∨ dest_currency = "" then
    { attemptsMade := 0
      sleeps := []
      result := Except.error
        (.valueError "source_currency and dest_currency are required") }
  else
    let _url := c.base_url ++ "/twirp/payments.v1.FXService/GetQuote"
    quoteLoop upstream c.max_retries c.max_retries 0 none

/- ------------------------------------------------------------------ -/
/- Payment orchestrator (app/routers.py, create_payment)               -/
/- ------------------------------------------------------------------ -/

/-- The error signalled to the caller of `create_payment`: the raised
`HTTPException`, or a repository exception escaping unhandled. -/
inductive OrchError
  | httpException (statusCode : Nat) (detail : String)
  | repoFailure (e : RepoError)
deriving DecidableEq, Repr

/-- Full observable behaviour of one `create_payment` call: the repository
state left behind, the payment snapshots persisted into it (in order), and
the response returned or error raised. -/
structure OrchestratorRun where
  repo : InMemoryPaymentRepository
  written : List Payment
  response : Except OrchError Payment
deriving Repr

/-- The initial PENDING payment built by `create_payment`: trimmed parties,
trimmed and upper-cased currencies, both timestamps set to `now`, empty
diagnostics, no payout, rate or error. -/
def initialPayment (req : CreatePaymentRequest) (uuid : String) (now : Nat) :
    Payment :=
  { id := uuid
    sender := pyStrip req.sender
    receiver := pyStrip req.receiver
    amount := req.amount
    source_currency := pyUpper (pyStrip req.source_currency)
    destination_currency := pyUpper (pyStrip req.destination_currency)
    status := .PENDING
    payout_amount := none
    fx_rate := none
    error_message := none
    diagnostics := {}
    created_at := now
    updated_at := now
    payout_currency := pyUpper (pyStrip req.destination_currency) }

/-- The in-place mutations of the success branch: record the attempt's
latency, the rate, `payout = amount * rate`, status SUCCEEDED, and a fresh
`updated_at` reading. -/
def markSucceeded (p : Payment) (rate : ℚ) (latency_ms : Nat) (now : Nat) :
    Payment :=
  { p with
    diagnostics := { p.diagnostics with fx_latency_ms := some latency_ms }
    fx_rate := some rate
    payout_amount := some (p.amount * rate)
    status := .SUCCEEDED
    updated_at := now }

/-- The in-place mutations of the `except` handler: record the failure
message into `diagnostics.fx_error` and `error_message`, status FAILED,
and a fresh `updated_at` reading. -/
def markFailed (p : Payment) (msg : String) (now : Nat) : Payment :=
  { p with
    diagnostics := { p.diagnostics with fx_error := some msg }
    error_message := some msg
    status := .FAILED
    updated_at := now }

/-- `create_payment`: build the PENDING payment with clock reading 0,
`repo.save` it, call `get_quote`, then either mark it SUCCEEDED (clock
reading 1) and `repo.update` it and return it, or run the `except` handler:
mark it FAILED, `repo.update` it and raise a 502 `HTTPException`.  The
`except` block also catches a `PaymentNotFound` escaping the success
branch's own `repo.update`; the handler then reads the clock a third time
and its own failing `repo.update` propagates unhandled. -/
def create_payment (fx : FXClient) (upstream : Nat → Attempt)
    (repo : InMemoryPaymentRepository) (req : CreatePaymentRequest)
    (uuid : String) (clock : Nat → Nat) : OrchestratorRun :=
  let payment := initialPayment req uuid (clock 0)
  let repo1 := repo.save payment
  let run := fx.get_quote upstream payment.source_currency payment.destination_currency
  match run.result with
  | Except.ok (rate, latency_ms) =>
      let p2 := markSucceeded payment rate latency_ms (clock 1)
      match repo1.update p2 with
      | (Except.ok _, repo2) =>
          { repo := repo2, written := [payment, p2], response := Except.ok p2 }
      | (Except.error e, repo2) =>
          let p3 := markFailed p2 e.message (clock 2)
          match repo2.update p3 with
          | (Except.ok _, repo3) =>
              { repo := repo3
                written := [payment, p3]
                response := Except.error
                  (.httpException 502 "Failed to obtain FX rate") }
          | (Except.error e2, repo3) =>
              { repo := repo3
                written := [payment]
                response := Except.error (.repoFailure e2) }
  | Except.error fxe =>
      let p3 := markFailed payment fxe.message (clock 1)
      match repo1.update p3 with
      | (Except.ok _, repo2) =>
          { repo := repo2
            written := [payment, p3]
            response := Except.error
              (.httpException 502 "Failed to obtain FX rate") }
      | (Except.error e2, repo2) =>
          { repo := repo2
            written := [payment]
            response := Except.error (.repoFailure e2) }

/-- `get_payment`: delegate to the store, mapping `PaymentNotFound` to a
404 `HTTPException`. -/
def get_payment (repo : InMemoryPaymentRepository) (payment_id : String) :
    Except OrchError Payment :=
  match repo.get payment_id with
  | Except.ok p => Except.ok p
  | Except.error (.PaymentNotFound _) =>
      Except.error (.httpException 404 "Payment not found")
  | Except.error e => Except.error (.repoFailure e)

/- ------------------------------------------------------------------ -/
/- Store lemmas                                                        -/
/- ------------------------------------------------------------------ -/

theorem storeLookup_storeSet_self (s : StoreMap) (k : String) (r : PaymentRecord) :
    storeLookup (storeSet s k r) k = some r := by
  induction s with
  | nil => simp [storeSet, storeLookup]
  | cons kv tl ih =>
      by_cases h : kv.1 = k
      · simp [storeSet, storeLookup, h]
      · simp [storeSet, storeLookup, h, ih]

theorem statusOfValue_value (st : PaymentStatus) :
    statusOfValue st.value = some st := by
  cases st <;> rfl

theorem toPayment_ofPayment (p : Payment) :
    (PaymentRecord.ofPayment p).toPayment = some p := by
  simp only [PaymentRecord.toPayment, PaymentRecord.ofPayment, statusOfValue_value]

theorem update_after_save (repo : InMemoryPaymentRepository) (p q : Payment)
    (h : q.id = p.id) :
    (repo.save p).update q =
      (Except.ok (),
        ⟨storeSet (repo.save p).payments q.id (PaymentRecord.ofPayment q)⟩) := by
  simp [InMemoryPaymentRepository.update, InMemoryPaymentRepository.save, h,
    storeLookup_storeSet_self]

theorem get_after_set (payments : StoreMap) (p : Payment) :
    InMemoryPaymentRepository.get
      ⟨storeSet payments p.id (PaymentRecord.ofPayment p)⟩ p.id =
      Except.ok p := by
  simp [InMemoryPaymentRepository.get, storeLookup_storeSet_self, toPayment_ofPayment]

/- ------------------------------------------------------------------ -/
/- Quote loop lemmas                                                   -/
/- ------------------------------------------------------------------ -/

theorem attemptSuccess_eq_some {a : Attempt} {r : ℚ} {lat : Nat} :
    attemptSuccess a = some (r, lat) ↔ a = .ok r lat ∧ 0 < r := by
  cases a with
  | exn m => simp [attemptSuccess]
  | badStatus c l => simp [attemptSuccess]
  | ok rate l =>
      by_cases h : 0 < rate
      · simp only [attemptSuccess, if_pos h, Option.some.injEq, Prod.mk.injEq,
          Attempt.ok.injEq]
        constructor
        · rintro ⟨rfl, rfl⟩; exact ⟨⟨rfl, rfl⟩, h⟩
        · rintro ⟨⟨rfl, rfl⟩, _⟩; exact ⟨rfl, rfl⟩
      · simp only [attemptSuccess, if_neg h, Attempt.ok.injEq]
        constructor
        · intro hc; cases hc
        · rintro ⟨⟨rfl, rfl⟩, hr⟩; exact absurd hr h

theorem quoteLoop_zero (upstream : Nat → Attempt) (maxR i : Nat) (m : String) :
    quoteLoop upstream maxR 0 i (some m) =
      { attemptsMade := 0, sleeps := [],
        result := Except.error (.quoteFailure m) } := rfl

theorem quoteLoop_succ_of_success (upstream : Nat → Attempt)
    (maxR rem i : Nat) (last : Option String) {r : ℚ} {lat : Nat}
    (h : attemptSuccess (upstream i) = some (r, lat)) :
    quoteLoop upstream maxR (rem + 1) i last =
      { attemptsMade := 1, sleeps := [], result := Except.ok (r, lat) } := by
  simp [quoteLoop, h]

theorem quoteLoop_succ_of_fail (upstream : Nat → Attempt)
    (maxR rem i : Nat) (last : Option String)
    (h : attemptSuccess (upstream i) = none) :
    quoteLoop upstream maxR (rem + 1) i last =
      { attemptsMade :=
          (quoteLoop upstream maxR rem (i + 1) (some (failMsg (upstream i)))).attemptsMade + 1
        sleeps :=
          (if i < maxR - 1 then [(1 / 5 : ℚ) * ((i : ℚ) + 1)] else []) ++
            (quoteLoop upstream maxR rem (i + 1) (some (failMsg (upstream i)))).sleeps
        result :=
          (quoteLoop upstream maxR rem (i + 1) (some (failMsg (upstream i)))).result } := by
  simp [quoteLoop, h]

theorem quoteLoop_result_ok_iff (upstream : Nat → Attempt) (maxR : Nat) :
    ∀ (rem i : Nat) (last : Option String) (r : ℚ) (lat : Nat),
      (quoteLoop upstream maxR rem i last).result = Except.ok (r, lat) ↔
        ∃ k, k < rem ∧ (∀ j, j < k → attemptSuccess (upstream (i + j)) = none) ∧
          attemptSuccess (upstream (i + k)) = some (r, lat) := by
  intro rem
  induction rem with
  | zero =>
      intro i last r lat
      constructor
      · intro h
        exact absurd h (by cases last <;> simp [quoteLoop])
      · rintro ⟨k, hk, -, -⟩
        exact absurd hk (Nat.not_lt_zero k)
  | succ m ih =>
      intro i last r lat
      cases hA : attemptSuccess (upstream i) with
      | some pr =>
          obtain ⟨r0, lat0⟩ := pr
          rw [quoteLoop_succ_of_success upstream maxR m i last hA]
          constructor
          · intro h
            obtain ⟨rfl, rfl⟩ : r0 = r ∧ lat0 = lat := by
              simpa using h
            refine ⟨0, Nat.succ_pos m, fun j hj => absurd hj (Nat.not_lt_zero j), ?_⟩
            simpa using hA
          · rintro ⟨k, hk, hpre, hsucc⟩
            cases k with
            | zero =>
                rw [Nat.add_zero, hA] at hsucc
                simpa using hsucc
            | succ k0 =>
                have h0 := hpre 0 (Nat.succ_pos k0)
                rw [Nat.add_zero, hA] at h0
                cases h0
      | none =>
          rw [quoteLoop_succ_of_fail upstream maxR m i last hA]
          simp only []
          rw [ih (i + 1) (some (failMsg (upstream i))) r lat]
          constructor
          · rintro ⟨k, hk, hpre, hsucc⟩
            refine ⟨k + 1, by omega, ?_, ?_⟩
            · intro j hj
              cases j with
              | zero => simpa using hA
              | succ j0 =>
                  have := hpre j0 (by omega)
                  rwa [show i + (j0 + 1) = i + 1 + j0 by omega]
            · rwa [show i + (k + 1) = i + 1 + k by omega]
          · rintro ⟨k, hk, hpre, hsucc⟩
            cases k with
            | zero =>
                rw [Nat.add_zero, hA] at hsucc
                cases hsucc
            | succ k0 =>
                refine ⟨k0, by omega, ?_, ?_⟩
                · intro j hj
                  have := hpre (j + 1) (by omega)
                  rwa [show i + (j + 1) = i + 1 + j by omega] at this
                · rwa [show i + (k0 + 1) = i + 1 + k0 by omega] at hsucc

theorem quoteLoop_allFail (upstream : Nat → Attempt) (maxR : Nat) :
    ∀ (m i : Nat) (last : Option String),
      (∀ j, j < m + 1 → attemptSuccess (upstream (i + j)) = none) →
      (quoteLoop upstream maxR (m + 1) i last).attemptsMade = m + 1 ∧
        (quoteLoop upstream maxR (m + 1) i last).result =
          Except.error (.quoteFailure (failMsg (upstream (i + m)))) := by
  intro m
  induction m with
  | zero =>
      intro i last hf
      have h0 : attemptSuccess (upstream i) = none := by
        simpa using hf 0 Nat.one_pos
      rw [quoteLoop_succ_of_fail upstream maxR 0 i last h0]
      simp [quoteLoop_zero]
  | succ m0 ih =>
      intro i last hf
      have h0 : attemptSuccess (upstream i) = none := by
        simpa using hf 0 (by omega)
      rw [quoteLoop_succ_of_fail upstream maxR (m0 + 1) i last h0]
      have hrest := ih (i + 1) (some (failMsg (upstream i))) ?_
      · refine ⟨by rw [hrest.1], ?_⟩
        rw [hrest.2, show i + 1 + m0 = i + (m0 + 1) by omega]
      · intro j hj
        have := hf (j + 1) (by omega)
        rwa [show i + (j + 1) = i + 1 + j by omega] at this

theorem quoteLoop_prefixSuccess (upstream : Nat → Attempt) (maxR : Nat) :
    ∀ (m i rem : Nat) (last : Option String) (r : ℚ) (lat : Nat),
      m < rem → i + rem = maxR →
      (∀ j, j < m → attemptSuccess (upstream (i + j)) = none) →
      attemptSuccess (upstream (i + m)) = some (r, lat) →
      quoteLoop upstream maxR rem i last =
        { attemptsMade := m + 1
          sleeps := (List.range m).map (fun (k : Nat) => (1 / 5 : ℚ) * ((i : ℚ) + (k : ℚ) + 1))
          result := Except.ok (r, lat) } := by
  intro m
  induction m with
  | zero =>
      intro i rem last r lat hm hmr hpre hsucc
      obtain ⟨rem0, rfl⟩ : ∃ rem0, rem = rem0 + 1 := ⟨rem - 1, by omega⟩
      rw [Nat.add_zero] at hsucc
      rw [quoteLoop_succ_of_success upstream maxR rem0 i last hsucc]
      simp
  | succ m0 ih =>
      intro i rem last r lat hm hmr hpre hsucc
      obtain ⟨rem0, rfl⟩ : ∃ rem0, rem = rem0 + 1 := ⟨rem - 1, by omega⟩
      have h0 : attemptSuccess (upstream i) = none := by
        simpa using hpre 0 (Nat.succ_pos m0)
      rw [quoteLoop_succ_of_fail upstream maxR rem0 i last h0]
      have hrest := ih (i + 1) rem0 (some (failMsg (upstream i))) r lat
        (by omega) (by omega)
        (fun j hj => by
          have := hpre (j + 1) (by omega)
          rwa [show i + (j + 1) = i + 1 + j by omega] at this)
        (by rwa [show i + (m0 + 1) = i + 1 + m0 by omega] at hsucc)
      rw [hrest]
      have hsleep : i < maxR - 1 := by omega
      have hmap :
          (List.range (m0 + 1)).map
              (fun (k : Nat) => (1 / 5 : ℚ) * ((i : ℚ) + (k : ℚ) + 1)) =
            (1 / 5 : ℚ) * ((i : ℚ) + 1) ::
              (List.range m0).map
                (fun (k : Nat) => (1 / 5 : ℚ) * (((i + 1 : Nat) : ℚ) + (k : ℚ) + 1)) := by
        rw [List.range_succ_eq_map, List.map_cons, List.map_map]
        refine congrArg₂ _ (by norm_num) ?_
        refine List.map_congr_left ?_
        intro k _
        simp only [Function.comp_apply]
        push_cast
        ring
      simp only [if_pos hsleep, hmap]
      rfl

theorem get_quote_eq_loop (c : FXClient) (upstream : Nat → Attempt)
    (src dst : String) (hs : src ≠ "") (hd : dst ≠ "") :
    c.get_quote upstream src dst =
      quoteLoop upstream c.max_retries c.max_retries 0 none := by
  simp [FXClient.get_quote, hs, hd]

theorem get_quote_ok_pos (c : FXClient) (upstream : Nat → Attempt)
    (src dst : String) (r : ℚ) (lat : Nat)
    (h : (c.get_quote upstream src dst).result = Except.ok (r, lat)) : 0 < r := by
  by_cases he : src = "" ∨ dst = ""
  · rw [FXClient.get_quote, if_pos he] at h
    cases h
  · push_neg at he
    rw [get_quote_eq_loop c upstream src dst he.1 he.2] at h
    rw [quoteLoop_result_ok_iff] at h
    obtain ⟨k, -, -, hsucc⟩ := h
    exact (attemptSuccess_eq_some.mp hsucc).2

theorem sum_range_linear (m : Nat) :
    (((List.range m).map (fun (k : Nat) => (1 / 5 : ℚ) * ((k : ℚ) + 1))).sum) =
      ((m : ℚ) * ((m : ℚ) + 1)) / 10 := by
  induction m with
  | zero => simp
  | succ n ih =>
      rw [List.range_succ, List.map_append, List.sum_append, ih]
      push_cast
      simp
      ring

/- ------------------------------------------------------------------ -/
/- Orchestrator path lemmas                                            -/
/- ------------------------------------------------------------------ -/

theorem initialPayment_id (req : CreatePaymentRequest) (uuid : String) (now : Nat) :
    (initialPayment req uuid now).id = uuid := rfl

theorem initialPayment_source (req : CreatePaymentRequest) (uuid : String) (now : Nat) :
    (initialPayment req uuid now).source_currency =
      pyUpper (pyStrip req.source_currency) := rfl

theorem initialPayment_dest (req : CreatePaymentRequest) (uuid : String) (now : Nat) :
    (initialPayment req uuid now).destination_currency =
      pyUpper (pyStrip req.destination_currency) := rfl

theorem markSucceeded_id (p : Payment) (r : ℚ) (lat : Nat) (now : Nat) :
    (markSucceeded p r lat now).id = p.id := rfl

theorem markFailed_id (p : Payment) (msg : String) (now : Nat) :
    (markFailed p msg now).id = p.id := rfl

theorem create_payment_of_ok (fx : FXClient) (upstream : Nat → Attempt)
    (repo : InMemoryPaymentRepository) (req : CreatePaymentRequest)
    (uuid : String) (clock : Nat → Nat) (r : ℚ) (lat : Nat)
    (h : (fx.get_quote upstream (pyUpper (pyStrip req.source_currency))
        (pyUpper (pyStrip req.destination_currency))).result = Except.ok (r, lat)) :
    create_payment fx upstream repo req uuid clock =
      { repo := (repo.save (initialPayment req uuid (clock 0))).save
          (markSucceeded (initialPayment req uuid (clock 0)) r lat (clock 1))
        written := [initialPayment req uuid (clock 0),
          markSucceeded (initialPayment req uuid (clock 0)) r lat (clock 1)]
        response := Except.ok
          (markSucceeded (initialPayment req uuid (clock 0)) r lat (clock 1)) } := by
  simp only [create_payment, initialPayment_source, initialPayment_dest]
  rw [h]
  dsimp only
  rw [update_after_save _ _ _ (markSucceeded_id _ _ _ _)]
  rfl

theorem create_payment_of_err (fx : FXClient) (upstream : Nat → Attempt)
    (repo : InMemoryPaymentRepository) (req : CreatePaymentRequest)
    (uuid : String) (clock : Nat → Nat) (e : FXError)
    (h : (fx.get_quote upstream (pyUpper (pyStrip req.source_currency))
        (pyUpper (pyStrip req.destination_currency))).result = Except.error e) :
    create_payment fx upstream repo req uuid clock =
      { repo := (repo.save (initialPayment req uuid (clock 0))).save
          (markFailed (initialPayment req uuid (clock 0)) e.message (clock 1))
        written := [initialPayment req uuid (clock 0),
          markFailed (initialPayment req uuid (clock 0)) e.message (clock 1)]
        response := Except.error
          (.httpException 502 "Failed to obtain FX rate") } := by
  simp only [create_payment, initialPayment_source, initialPayment_dest]
  rw [h]
  dsimp only
  rw [update_after_save _ _ _ (markFailed_id _ _ _)]
  rfl

/- ------------------------------------------------------------------ -/
/- Concrete fixtures used by witnesses                                 -/
/- ------------------------------------------------------------------ -/

def sampleReq : CreatePaymentRequest :=
  { sender := "alice", receiver := "bob", amount := 100
    source_currency := "usd", destination_currency := "eur" }

def samplePayment : Payment :=
  { id := "p1", sender := "alice", receiver := "bob", amount := 100
    source_currency := "USD", destination_currency := "EUR"
    status := .PENDING, created_at := 0, updated_at := 0
    payout_currency := "EUR" }

def fxDefault : FXClient := { base_url := "http://localhost:4000" }

def fxOneRetry : FXClient := { base_url := "http://localhost:4000", max_retries := 1 }

def okUpstream : Nat → Attempt := fun _ => .ok 2 12

def boomUpstream : Nat → Attempt := fun _ => .exn "boom"

def rejectedUpstream : Nat → Attempt := fun _ => .badStatus 500 37

def lastChanceUpstream : Nat → Attempt := fun n => if n < 2 then .exn "x" else .ok 2 34

/- ------------------------------------------------------------------ -/
/- Claim theorems                                                      -/
/- ------------------------------------------------------------------ -/

/-- Claim C8: for every store state and every payment whose identifier is
not currently present in the store, `update` fails with a not-found error
and the store's contents are exactly the same after the failed call as
before it. -/
theorem update_missing_id_fails_unchanged (repo : InMemoryPaymentRepository)
    (p : Payment) (h : storeLookup repo.payments p.id = none) :
    repo.update p = (Except.error (.PaymentNotFound p.id), repo) := by
  simp [InMemoryPaymentRepository.update, h]

/-- Witness for C8 at the empty store. -/
theorem update_missing_id_fails_unchanged_witness :
    InMemoryPaymentRepository.update ⟨[]⟩ samplePayment =
      (Except.error (.PaymentNotFound "p1"), (⟨[]⟩ : InMemoryPaymentRepository)) :=
  update_missing_id_fails_unchanged ⟨[]⟩ samplePayment rfl

/-- Claim C10: for every payment and every store state, `get(p.id)`
immediately after `save(p)` returns a payment equal to `p` in every field:
the conversion into the stored dataclass and back is a round-trip,
including nested diagnostics and both timestamps. -/
theorem save_get_roundtrip (repo : InMemoryPaymentRepository) (p : Payment) :
    (repo.save p).get p.id = Except.ok p :=
  get_after_set repo.payments p

/-- Claim C9: a `get_quote` call in which either currency code is the empty
string fails immediately with the argument-validation `ValueError`, with no
attempt issued and no backoff wait performed. -/
theorem getQuote_empty_currency_fails_fast (c : FXClient)
    (upstream : Nat → Attempt) (src dst : String) (h : src = "" ∨ dst = "") :
    c.get_quote upstream src dst =
      { attemptsMade := 0
        sleeps := []
        result := Except.error
          (.valueError "source_currency and dest_currency are required") } := by
  simp only [FXClient.get_quote]
  rw [if_pos h]

/-- Witness for C9 with an empty source currency. -/
theorem getQuote_empty_currency_fails_fast_witness :
    fxDefault.get_quote boomUpstream "" "EUR" =
      { attemptsMade := 0
        sleeps := []
        result := Except.error
          (.valueError "source_currency and dest_currency are required") } :=
  getQuote_empty_currency_fails_fast fxDefault boomUpstream "" "EUR" (Or.inl rfl)

/-- Claim C3: for non-empty currency codes and an upstream on which every
attempt fails, `get_quote` makes exactly `max_retries` attempts (with
`max_retries >= 1`) and then raises the candidate failure recorded for the
last attempt, never an earlier attempt's failure. -/
theorem getQuote_allFail_exhausts_attempts (c : FXClient)
    (upstream : Nat → Attempt) (src dst : String)
    (hs : src ≠ "") (hd : dst ≠ "") (hN : 1 ≤ c.max_retries)
    (hfail : ∀ j, attemptSuccess (upstream j) = none) :
    (c.get_quote upstream src dst).attemptsMade = c.max_retries ∧
    (c.get_quote upstream src dst).result =
      Except.error (.quoteFailure (failMsg (upstream (c.max_retries - 1)))) := by
  rw [get_quote_eq_loop c upstream src dst hs hd]
  obtain ⟨m, hm⟩ : ∃ m, c.max_retries = m + 1 := ⟨c.max_retries - 1, by omega⟩
  rw [hm]
  have h := quoteLoop_allFail upstream (m + 1) m 0 none
    (fun j _ => by simpa using hfail j)
  simpa using h

/-- Witness for C3: three attempts against an always-raising upstream. -/
theorem getQuote_allFail_exhausts_attempts_witness :
    (fxDefault.get_quote boomUpstream "USD" "EUR").attemptsMade = 3 ∧
    (fxDefault.get_quote boomUpstream "USD" "EUR").result =
      Except.error (.quoteFailure "boom") := by
  have h := getQuote_allFail_exhausts_attempts fxDefault boomUpstream "USD" "EUR"
    (by decide) (by decide) (by decide) (fun j => rfl)
  exact ⟨h.1, h.2⟩

/-- Claim C4: an attempt succeeds and short-circuits the remaining attempts
iff a success-status response was received, parsed, and carries a positive
decoded rate; `get_quote` then returns exactly that rate and that attempt's
own measured latency, having made exactly `k + 1` attempts when the success
happened at attempt index `k`. -/
theorem getQuote_success_shortCircuit (c : FXClient) (upstream : Nat → Attempt)
    (src dst : String) (hs : src ≠ "") (hd : dst ≠ "") :
    (∀ (a : Attempt) (r : ℚ) (lat : Nat),
      attemptSuccess a = some (r, lat) ↔ (a = .ok r lat ∧ 0 < r)) ∧
    (∀ (r : ℚ) (lat : Nat),
      (c.get_quote upstream src dst).result = Except.ok (r, lat) ↔
        ∃ k, k < c.max_retries ∧
          (∀ j, j < k → attemptSuccess (upstream j) = none) ∧
          attemptSuccess (upstream k) = some (r, lat)) ∧
    (∀ (k : Nat) (r : ℚ) (lat : Nat), k < c.max_retries →
      (∀ j, j < k → attemptSuccess (upstream j) = none) →
      attemptSuccess (upstream k) = some (r, lat) →
      (c.get_quote upstream src dst).attemptsMade = k + 1 ∧
        (c.get_quote upstream src dst).result = Except.ok (r, lat)) := by
  refine ⟨fun a r lat => attemptSuccess_eq_some, ?_, ?_⟩
  · intro r lat
    rw [get_quote_eq_loop c upstream src dst hs hd, quoteLoop_result_ok_iff]
    simp only [Nat.zero_add]
  · intro k r lat hk hpre hsucc
    rw [get_quote_eq_loop c upstream src dst hs hd]
    rw [quoteLoop_prefixSuccess upstream c.max_retries k 0 c.max_retries none r lat
      hk (by omega) (fun j hj => by simpa using hpre j hj) (by simpa using hsucc)]
    exact ⟨rfl, rfl⟩

/-- Witness for C4: failure on attempts 0 and 1, success on attempt 2. -/
theorem getQuote_success_shortCircuit_witness :
    (fxDefault.get_quote lastChanceUpstream "USD" "EUR").attemptsMade = 3 ∧
    (fxDefault.get_quote lastChanceUpstream "USD" "EUR").result =
      Except.ok (2, 34) := by
  have h := (getQuote_success_shortCircuit fxDefault lastChanceUpstream "USD" "EUR"
    (by decide) (by decide)).2.2 2 2 34 (by decide)
    (fun j hj => by
      have hj2 : j < 2 := hj
      interval_cases j <;> rfl)
    rfl
  exact h

/-- Claim C5: between consecutive attempts (and never after the last), the
client waits a linearly growing backoff: the wait after attempt index `k`
(1-based) is `k` times the 0.2 s base delay, so a run failing on attempts
1..(N-1) and succeeding on attempt N waits the sleeps
`0.2 * 1, ..., 0.2 * (N-1)` totalling `(1 + 2 + ... + (N-1))` backoff
units, i.e. `(N-1) * N / 10` seconds. -/
theorem getQuote_linear_backoff (c : FXClient) (upstream : Nat → Attempt)
    (src dst : String) (r : ℚ) (lat : Nat)
    (hs : src ≠ "") (hd : dst ≠ "") (hN : 1 ≤ c.max_retries)
    (hfail : ∀ j, j < c.max_retries - 1 → attemptSuccess (upstream j) = none)
    (hsucc : attemptSuccess (upstream (c.max_retries - 1)) = some (r, lat)) :
    (c.get_quote upstream src dst).sleeps =
      (List.range (c.max_retries - 1)).map
        (fun (k : Nat) => (1 / 5 : ℚ) * ((k : ℚ) + 1)) ∧
    (c.get_quote upstream src dst).result = Except.ok (r, lat) ∧
    (c.get_quote upstream src dst).sleeps.sum =
      (((c.max_retries - 1 : Nat) : ℚ) * (((c.max_retries - 1 : Nat) : ℚ) + 1)) / 10 := by
  rw [get_quote_eq_loop c upstream src dst hs hd]
  rw [quoteLoop_prefixSuccess upstream c.max_retries (c.max_retries - 1) 0
    c.max_retries none r lat (by omega) (by omega)
    (fun j hj => by simpa using hfail j hj) (by simpa using hsucc)]
  have hmap :
      (List.range (c.max_retries - 1)).map
          (fun (k : Nat) => (1 / 5 : ℚ) * (((0 : Nat) : ℚ) + (k : ℚ) + 1)) =
        (List.range (c.max_retries - 1)).map
          (fun (k : Nat) => (1 / 5 : ℚ) * ((k : ℚ) + 1)) := by
    refine List.map_congr_left ?_
    intro k _
    norm_num
  refine ⟨hmap, rfl, ?_⟩
  dsimp only
  rw [hmap, sum_range_linear]

/-- Witness for C5: N = 3, failure on the first two attempts, success on
the third, total sleep 0.6 s. -/
theorem getQuote_linear_backoff_witness :
    (fxDefault.get_quote lastChanceUpstream "USD" "EUR").result =
      Except.ok (2, 34) ∧
    (fxDefault.get_quote lastChanceUpstream "USD" "EUR").sleeps.sum = 3 / 5 := by
  have h := getQuote_linear_backoff fxDefault lastChanceUpstream "USD" "EUR" 2 34
    (by decide) (by decide) (by decide)
    (fun j hj => by
      have hj2 : j < 2 := hj
      interval_cases j <;> rfl)
    rfl
  refine ⟨h.2.1, ?_⟩
  rw [h.2.2]
  norm_num [fxDefault]

/-- The status-dependent field invariant of the data model. -/
def statusInvariant (p : Payment) : Prop :=
  (p.status = .SUCCEEDED →
      ∃ fr, p.fx_rate = some fr ∧ 0 < fr ∧
        p.payout_amount = some (p.amount * fr)) ∧
  (p.status = .FAILED →
      p.error_message.isSome ∧ p.payout_amount = none ∧ p.fx_rate = none) ∧
  (p.status = .PENDING →
      p.payout_amount = none ∧ p.fx_rate = none ∧ p.error_message = none)

theorem statusInvariant_initial (req : CreatePaymentRequest) (uuid : String)
    (now : Nat) : statusInvariant (initialPayment req uuid now) := by
  refine ⟨fun hc => ?_, fun hc => ?_, fun _ => ⟨rfl, rfl, rfl⟩⟩ <;>
    simp [initialPayment] at hc

theorem statusInvariant_markSucceeded (p : Payment) (r : ℚ) (lat t : Nat)
    (h : 0 < r) : statusInvariant (markSucceeded p r lat t) := by
  refine ⟨fun _ => ⟨r, rfl, h, rfl⟩, fun hc => ?_, fun hc => ?_⟩ <;>
    simp [markSucceeded] at hc

theorem statusInvariant_markFailed_initial (req : CreatePaymentRequest)
    (uuid : String) (now : Nat) (msg : String) (t : Nat) :
    statusInvariant (markFailed (initialPayment req uuid now) msg t) := by
  refine ⟨fun hc => ?_, fun _ => ⟨rfl, rfl, rfl⟩, fun hc => ?_⟩ <;>
    simp [markFailed] at hc

/-- Claim C1: every payment record stored or returned by the orchestrator
satisfies the status-dependent field invariant: SUCCEEDED implies
payout_amount and fx_rate present, fx_rate positive and
payout_amount = amount * fx_rate; FAILED implies error_message present and
payout_amount, fx_rate absent; PENDING implies all three absent. -/
theorem createPayment_status_field_invariant (fx : FXClient)
    (upstream : Nat → Attempt) (repo : InMemoryPaymentRepository)
    (req : CreatePaymentRequest) (uuid : String) (clock : Nat → Nat) :
    (∀ p ∈ (create_payment fx upstream repo req uuid clock).written,
      statusInvariant p) ∧
    (∀ p, (create_payment fx upstream repo req uuid clock).response =
        Except.ok p → statusInvariant p) := by
  cases hres : (fx.get_quote upstream (pyUpper (pyStrip req.source_currency))
      (pyUpper (pyStrip req.destination_currency))).result with
  | ok pr =>
      obtain ⟨r, lat⟩ := pr
      have hpos : 0 < r := get_quote_ok_pos _ _ _ _ _ _ hres
      rw [create_payment_of_ok fx upstream repo req uuid clock r lat hres]
      constructor
      · intro p hp
        simp only [List.mem_cons, List.not_mem_nil, or_false] at hp
        rcases hp with rfl | rfl
        · exact statusInvariant_initial req uuid (clock 0)
        · exact statusInvariant_markSucceeded _ r lat (clock 1) hpos
      · intro p hp
        have hpe : markSucceeded (initialPayment req uuid (clock 0)) r lat (clock 1) = p := by
          simpa using hp
        rw [← hpe]
        exact statusInvariant_markSucceeded _ r lat (clock 1) hpos
  | error e =>
      rw [create_payment_of_err fx upstream repo req uuid clock e hres]
      constructor
      · intro p hp
        simp only [List.mem_cons, List.not_mem_nil, or_false] at hp
        rcases hp with rfl | rfl
        · exact statusInvariant_initial req uuid (clock 0)
        · exact statusInvariant_markFailed_initial req uuid (clock 0) e.message (clock 1)
      · intro p hp
        cases hp

/-- Witness for C1: the SUCCEEDED record returned for a rate of 2. -/
theorem createPayment_status_field_invariant_witness :
    statusInvariant (markSucceeded (initialPayment sampleReq "p1" 0) 2 12 1) := by
  have h := (createPayment_status_field_invariant fxDefault okUpstream ⟨[]⟩
    sampleReq "p1" (fun n => n)).2
  exact h (markSucceeded (initialPayment sampleReq "p1" 0) 2 12 1)
    (by rw [create_payment_of_ok fxDefault okUpstream ⟨[]⟩ sampleReq "p1"
          (fun n => n) 2 12 rfl])

/-- Claim C2: when the quote client fails, `create_payment` persists a
FAILED record whose `error_message` and `diagnostics.fx_error` equal the
failure's cause string, that record is retrievable afterwards by its
identifier, and the creation call itself raises the 502 upstream-failure
error. -/
theorem createPayment_quoteFailure_persists_failed (fx : FXClient)
    (upstream : Nat → Attempt) (repo : InMemoryPaymentRepository)
    (req : CreatePaymentRequest) (uuid : String) (clock : Nat → Nat)
    (e : FXError)
    (h : (fx.get_quote upstream (pyUpper (pyStrip req.source_currency))
        (pyUpper (pyStrip req.destination_currency))).result = Except.error e) :
    (create_payment fx upstream repo req uuid clock).response =
      Except.error (.httpException 502 "Failed to obtain FX rate") ∧
    ∃ fin, (create_payment fx upstream repo req uuid clock).written =
        [initialPayment req uuid (clock 0), fin] ∧
      fin.status = .FAILED ∧
      fin.error_message = some e.message ∧
      fin.diagnostics.fx_error = some e.message ∧
      (create_payment fx upstream repo req uuid clock).repo.get uuid =
        Except.ok fin := by
  rw [create_payment_of_err fx upstream repo req uuid clock e h]
  refine ⟨rfl, markFailed (initialPayment req uuid (clock 0)) e.message (clock 1),
    rfl, rfl, rfl, rfl, ?_⟩
  exact get_after_set _ _

/-- Witness for C2: an always-raising upstream with one retry. -/
theorem createPayment_quoteFailure_persists_failed_witness :
    (create_payment fxOneRetry boomUpstream ⟨[]⟩ sampleReq "p1" (fun n => n)).response =
      Except.error (.httpException 502 "Failed to obtain FX rate") :=
  (createPayment_quoteFailure_persists_failed fxOneRetry boomUpstream ⟨[]⟩
    sampleReq "p1" (fun n => n) (.quoteFailure "boom") rfl).1

/-- Claim C6: both timestamps of the PENDING record equal the creation
reading; the terminal record keeps `created_at` and refreshes `updated_at`
to the strictly later transition reading, so `updated_at >= created_at`
always, strictly greater once terminal, and `updated_at` changes exactly at
the transition. -/
theorem createPayment_timestamps (fx : FXClient) (upstream : Nat → Attempt)
    (repo : InMemoryPaymentRepository) (req : CreatePaymentRequest)
    (uuid : String) (clock : Nat → Nat) (hclk : clock 0 < clock 1) :
    ∃ pend fin,
      (create_payment fx upstream repo req uuid clock).written = [pend, fin] ∧
      pend.status = .PENDING ∧
      pend.created_at = clock 0 ∧ pend.updated_at = pend.created_at ∧
      fin.created_at = clock 0 ∧ fin.updated_at = clock 1 ∧
      fin.status ≠ .PENDING ∧
      pend.created_at ≤ pend.updated_at ∧ fin.created_at < fin.updated_at := by
  cases hres : (fx.get_quote upstream (pyUpper (pyStrip req.source_currency))
      (pyUpper (pyStrip req.destination_currency))).result with
  | ok pr =>
      obtain ⟨r, lat⟩ := pr
      rw [create_payment_of_ok fx upstream repo req uuid clock r lat hres]
      exact ⟨_, _, rfl, rfl, rfl, rfl, rfl, rfl, by simp [markSucceeded],
        Nat.le_refl _, hclk⟩
  | error e =>
      rw [create_payment_of_err fx upstream repo req uuid clock e hres]
      exact ⟨_, _, rfl, rfl, rfl, rfl, rfl, rfl, by simp [markFailed],
        Nat.le_refl _, hclk⟩

/-- Witness for C6 with the identity clock. -/
theorem createPayment_timestamps_witness :
    ∃ pend fin,
      (create_payment fxDefault okUpstream ⟨[]⟩ sampleReq "p1" (fun n => n)).written =
        [pend, fin] ∧
      pend.status = .PENDING ∧
      pend.created_at = (fun n => n) 0 ∧ pend.updated_at = pend.created_at ∧
      fin.created_at = (fun n => n) 0 ∧ fin.updated_at = (fun n => n) 1 ∧
      fin.status ≠ .PENDING ∧
      pend.created_at ≤ pend.updated_at ∧ fin.created_at < fin.updated_at :=
  createPayment_timestamps fxDefault okUpstream ⟨[]⟩ sampleReq "p1"
    (fun n => n) Nat.zero_lt_one

/-- Counterexample to C7 as stated: with a single attempt that receives a
response (HTTP 500, measured latency 37 ms) and is rejected, the persisted
FAILED record has `fx_error` populated but `fx_latency_ms` absent — the
latency of the received-but-rejected response is not recorded, contrary to
the claim's "unless a response was received before rejection" clause. -/
theorem diagnostics_latency_on_failure_cex :
    rejectedUpstream 0 = .badStatus 500 37 ∧
    (create_payment fxOneRetry rejectedUpstream ⟨[]⟩ sampleReq "p1"
        (fun n => n)).written =
      [initialPayment sampleReq "p1" 0,
        markFailed (initialPayment sampleReq "p1" 0) (badStatusMsg 500) 1] ∧
    (markFailed (initialPayment sampleReq "p1" 0) (badStatusMsg 500) 1).status =
      .FAILED ∧
    (markFailed (initialPayment sampleReq "p1" 0)
        (badStatusMsg 500) 1).diagnostics.fx_error = some (badStatusMsg 500) ∧
    (markFailed (initialPayment sampleReq "p1" 0)
        (badStatusMsg 500) 1).diagnostics.fx_latency_ms = none := by
  refine ⟨rfl, ?_, rfl, rfl, rfl⟩
  rw [create_payment_of_err fxOneRetry rejectedUpstream ⟨[]⟩ sampleReq "p1"
    (fun n => n) (.quoteFailure (badStatusMsg 500)) rfl]
  rfl

/-- Claim C7 as amended: on success the returned record carries the
successful attempt's latency and no error; on failure the persisted record
carries the failure cause and its latency is always absent (the latency of
a received-but-rejected response is not recorded). -/
theorem diagnostics_population (fx : FXClient) (upstream : Nat → Attempt)
    (repo : InMemoryPaymentRepository) (req : CreatePaymentRequest)
    (uuid : String) (clock : Nat → Nat) :
    (∀ p ∈ (create_payment fx upstream repo req uuid clock).written,
      (p.status = .SUCCEEDED →
          p.diagnostics.fx_latency_ms.isSome ∧ p.diagnostics.fx_error = none) ∧
      (p.status = .FAILED →
          p.diagnostics.fx_error.isSome ∧ p.diagnostics.fx_latency_ms = none)) ∧
    (∀ (p : Payment) (r : ℚ) (lat : Nat),
      (fx.get_quote upstream (pyUpper (pyStrip req.source_currency))
          (pyUpper (pyStrip req.destination_currency))).result =
        Except.ok (r, lat) →
      (create_payment fx upstream repo req uuid clock).response = Except.ok p →
      p.diagnostics.fx_latency_ms = some lat ∧ p.diagnostics.fx_error = none) := by
  cases hres : (fx.get_quote upstream (pyUpper (pyStrip req.source_currency))
      (pyUpper (pyStrip req.destination_currency))).result with
  | ok pr =>
      obtain ⟨r, lat⟩ := pr
      rw [create_payment_of_ok fx upstream repo req uuid clock r lat hres]
      constructor
      · intro p hp
        simp only [List.mem_cons, List.not_mem_nil, or_false] at hp
        rcases hp with rfl | rfl
        · exact ⟨fun hc => by simp [initialPayment] at hc,
            fun hc => by simp [initialPayment] at hc⟩
        · exact ⟨fun _ => ⟨rfl, rfl⟩, fun hc => by simp [markSucceeded] at hc⟩
      · intro p r0 lat0 hq hp
        obtain ⟨hr, hl⟩ : r = r0 ∧ lat = lat0 := by simpa using hq
        subst hr
        subst hl
        have hpe :
            markSucceeded (initialPayment req uuid (clock 0)) r lat (clock 1) = p := by
          simpa using hp
        rw [← hpe]
        exact ⟨rfl, rfl⟩
  | error e =>
      rw [create_payment_of_err fx upstream repo req uuid clock e hres]
      constructor
      · intro p hp
        simp only [List.mem_cons, List.not_mem_nil, or_false] at hp
        rcases hp with rfl | rfl
        · exact ⟨fun hc => by simp [initialPayment] at hc,
            fun hc => by simp [initialPayment] at hc⟩
        · exact ⟨fun hc => by simp [markFailed] at hc, fun _ => ⟨rfl, rfl⟩⟩
      · intro p r0 lat0 hq hp
        cases hq

/-- Witness for the amended C7: a successful run populates the attempt's
latency and leaves the error absent. -/
theorem diagnostics_population_witness :
    (markSucceeded (initialPayment sampleReq "p1" 0) 2 12 1).diagnostics.fx_latency_ms =
      some 12 ∧
    (markSucceeded (initialPayment sampleReq "p1" 0) 2 12 1).diagnostics.fx_error =
      none := by
  have h := (diagnostics_population fxDefault okUpstream ⟨[]⟩ sampleReq "p1"
    (fun n => n)).2
  exact h (markSucceeded (initialPayment sampleReq "p1" 0) 2 12 1) 2 12 rfl
    (by rw [create_payment_of_ok fxDefault okUpstream ⟨[]⟩ sampleReq "p1"
          (fun n => n) 2 12 rfl])
